import Mathlib

/-!
Verification of the per-domain conversational session manager of the
airbus-ai-assistant repository, shallowly embedded from
`src/hooks/useMultiChat.ts`, `src/pages/Index.tsx` and
`src/components/VoiceEnabledMessageInput.tsx`.

The React hook state is modelled as a map from aircraft-model tags
(strings) to per-domain `AircraftState` records.  React's functional
`setState` discipline is modelled by `updateAircraftState`, which applies
a patch (literal or computed from the previous state) to the entry of one
domain.  Asynchronous operations (`sendMessage`, `handleSendMessage`,
`loadMessages`, ...) are modelled as pure functions that take

  * `snap` — the render-time closure snapshot of the state map that the
    JavaScript closure actually reads (a React closure never sees writes
    performed after its render), and
  * `s0`   — the live state at the moment the operation starts,

and return the list of successive live states produced by each
`updateAircraftState` call, together with a flag recording whether the
operation threw.  External effects (Supabase fetches, the remote answer
call, `Date.now()`-derived identifiers) are supplied as parameters.
-/

namespace Airbus

/-- Message role, from the `role: 'user' | 'assistant'` union in
`useMultiChat.ts`. -/
inductive Role where
  | user
  | assistant
deriving DecidableEq

/-- The `Message` record of `useMultiChat.ts`.  The optional boolean
fields default to `false`, matching the falsiness of `undefined`. -/
structure Message where
  id : String
  role : Role
  content : String
  created_at : String
  isPending : Bool := false
  isTyping : Bool := false
  isVoice : Bool := false
deriving DecidableEq

/-- The `Conversation` record of `useMultiChat.ts`. -/
structure Conversation where
  id : String
  title : String
  created_at : String
  updated_at : String
  aircraft_model : String
deriving DecidableEq

/-- The `AircraftState` record of `useMultiChat.ts` (one per domain). -/
structure AircraftState where
  conversations : List Conversation
  currentConversation : Option String
  messages : List Message
  isLoading : Bool
deriving DecidableEq

/-- `initialAircraftState` from `useMultiChat.ts`. -/
def initialAircraftState : AircraftState :=
  { conversations := [], currentConversation := none, messages := [], isLoading := false }

/-- The `Record<string, AircraftState>` held by the `aircraftStates`
`useState`, modelled as a total map over domain tags. -/
abbrev AircraftStates := String → AircraftState

/-- A `Partial<AircraftState>` patch: `none` means the field is absent
from the update object, so the previous value is kept by the spread. -/
structure StatePatch where
  conversations : Option (List Conversation) := none
  currentConversation : Option (Option String) := none
  messages : Option (List Message) := none
  isLoading : Option Bool := none

/-- The `updates` argument of `updateAircraftState`: either a literal
partial patch or a function of the previous per-domain state. -/
inductive StateUpdate where
  | patch : StatePatch → StateUpdate
  | fn : (AircraftState → StatePatch) → StateUpdate

/-- The spread `{ ...currentState, ...finalUpdates }`: fields present in
the patch replace the previous value, absent fields are kept. -/
def applyPatch (s : AircraftState) (p : StatePatch) : AircraftState :=
  { conversations := p.conversations.getD s.conversations,
    currentConversation := p.currentConversation.getD s.currentConversation,
    messages := p.messages.getD s.messages,
    isLoading := p.isLoading.getD s.isLoading }

/-- `typeof updates === 'function' ? updates(currentState) : updates`. -/
def evalUpdate (u : StateUpdate) (s : AircraftState) : StatePatch :=
  match u with
  | .patch p => p
  | .fn f => f s

/-- `updateAircraftState` from `useMultiChat.ts`.  The hook always goes
through the functional form of `setAircraftStates`, so the update is
evaluated against the state current at the moment of application. -/
def updateAircraftState (aircraftModel : String) (updates : StateUpdate)
    (prev : AircraftStates) : AircraftStates :=
  fun d =>
    if d = aircraftModel then
      applyPatch (prev aircraftModel) (evalUpdate updates (prev aircraftModel))
    else prev d

@[simp]
theorem updateAircraftState_self (m : String) (u : StateUpdate) (s : AircraftStates) :
    updateAircraftState m u s m = applyPatch (s m) (evalUpdate u (s m)) := by
  simp [updateAircraftState]

theorem updateAircraftState_ne {d m : String} (h : d ≠ m) (u : StateUpdate)
    (s : AircraftStates) : updateAircraftState m u s d = s d := by
  simp [updateAircraftState, h]

/-- Claim C1: `updateSession(domain, update)` produces a map whose entry
for the domain equals the previous entry merged with the patch obtained
by evaluating the update against the state current at the moment of
application; fields not named in the patch keep their previous values;
other domains are untouched; and two consecutive functional updates both
take effect (the second sees the first's result — no lost update). -/
theorem C1_updateSession (aircraftModel : String) (u : StateUpdate) (s : AircraftStates) :
    updateAircraftState aircraftModel u s aircraftModel
        = applyPatch (s aircraftModel) (evalUpdate u (s aircraftModel))
    ∧ (∀ d, d ≠ aircraftModel → updateAircraftState aircraftModel u s d = s d)
    ∧ (∀ p : StatePatch, p.messages = none →
        (updateAircraftState aircraftModel (.patch p) s aircraftModel).messages
          = (s aircraftModel).messages)
    ∧ (∀ p : StatePatch, p.isLoading = none →
        (updateAircraftState aircraftModel (.patch p) s aircraftModel).isLoading
          = (s aircraftModel).isLoading)
    ∧ (∀ x y : Message,
        (updateAircraftState aircraftModel
            (.fn (fun st => { messages := some (st.messages ++ [y]) }))
            (updateAircraftState aircraftModel
              (.fn (fun st => { messages := some (st.messages ++ [x]) })) s)
          aircraftModel).messages
        = (s aircraftModel).messages ++ [x, y]) := by
  refine ⟨updateAircraftState_self aircraftModel u s,
    fun d h => updateAircraftState_ne h u s, ?_, ?_, ?_⟩
  · intro p hp
    simp [applyPatch, evalUpdate, hp]
  · intro p hp
    simp [applyPatch, evalUpdate, hp]
  · intro x y
    simp [applyPatch, evalUpdate]

/-- Witness for C1 at a concrete domain, update and state, discharging
the hypotheses of the nested conjuncts. -/
theorem C1_updateSession_witness :
    (updateAircraftState "A320" (.patch { isLoading := some true })
        (fun _ => initialAircraftState) "A330").isLoading = false
    ∧ (updateAircraftState "A320" (.patch { isLoading := some true })
        (fun _ => initialAircraftState) "A320").messages = [] := by
  have h := C1_updateSession "A320" (.patch { isLoading := some true })
    (fun _ => initialAircraftState)
  refine ⟨?_, ?_⟩
  · rw [h.2.1 "A330" (by decide)]
    rfl
  · rw [h.2.2.1 { isLoading := some true } rfl]
    rfl

/-- The inline lambda `m => m.isPending ? { ...m, isPending: false } : m`
used by both the success and the error path of `sendMessage`. -/
def confirmPending (m : Message) : Message :=
  if m.isPending then { m with isPending := false } else m

/-- Number of typing placeholders in a timeline. -/
def typingCount (ms : List Message) : Nat :=
  ms.countP (fun m => m.isTyping)

/-- The live state after a trace of writes: the last written state, or
the initial live state when no write happened. -/
def finalState (s0 : AircraftStates) : List AircraftStates → AircraftStates
  | [] => s0
  | s :: tr => finalState s tr

/-- `loadConversations` from `useMultiChat.ts`.  `fetched = none` models
a store error (logged, prior list left untouched); `userPresent = false`
models the `if (!user) return` guard. -/
def loadConversations (userPresent : Bool) (fetched : Option (List Conversation))
    (aircraftModel : String) (s : AircraftStates) : AircraftStates :=
  if userPresent = false then s
  else
    match fetched with
    | none => s
    | some data => updateAircraftState aircraftModel (.patch { conversations := some data }) s

/-- `loadMessages` from `useMultiChat.ts`.  On a successful fetch the
domain's messages are replaced and `isLoading` cleared; on a store error
the messages are set to the empty list, `isLoading` is cleared, and the
error is rethrown (second component `true`). -/
def loadMessages (fetched : Option (List Message)) (conversationId aircraftModel : String)
    (s : AircraftStates) : AircraftStates × Bool :=
  match fetched with
  | some data =>
      (updateAircraftState aircraftModel
        (.patch { messages := some data, isLoading := some false }) s, false)
  | none =>
      (updateAircraftState aircraftModel
        (.patch { messages := some [], isLoading := some false }) s, true)

/-- `createConversation` from `useMultiChat.ts`.  `insertResult` is the
id returned by the store insert (`none` on insert error or missing
user); on success the conversation list is refreshed.  Never throws. -/
def createConversation (userPresent : Bool) (insertResult : Option String)
    (fetchedConvs : Option (List Conversation)) (aircraftModel : String)
    (s : AircraftStates) : AircraftStates × Option String :=
  if userPresent = false then (s, none)
  else
    match insertResult with
    | none => (s, none)
    | some cid => (loadConversations userPresent fetchedConvs aircraftModel s, some cid)

/-- `switchConversation` from `useMultiChat.ts`: sets `isLoading` and the
current-conversation pointer without clearing messages, then awaits
`loadMessages`; a `loadMessages` error is caught, `isLoading` cleared and
the error swallowed.  The second component records whether the operation
threw to its caller — it is always `false`. -/
def switchConversation (fetched : Option (List Message)) (conversationId aircraftModel : String)
    (s : AircraftStates) : AircraftStates × Bool :=
  let s1 := updateAircraftState aircraftModel
    (.patch { isLoading := some true, currentConversation := some (some conversationId) }) s
  let r := loadMessages fetched conversationId aircraftModel s1
  if r.2 then
    (updateAircraftState aircraftModel (.patch { isLoading := some false }) r.1, false)
  else (r.1, false)

/-- `switchAircraftModel` from `useMultiChat.ts`: returns the new active
domain pointer and the possibly-updated state map (the conversation list
of the switched-to domain is loaded when it is still empty). -/
def switchAircraftModel (userPresent : Bool) (fetched : Option (List Conversation))
    (aircraftModel : String) (s : AircraftStates) : String × AircraftStates :=
  if (s aircraftModel).conversations.length = 0 then
    (aircraftModel, loadConversations userPresent fetched aircraftModel s)
  else (aircraftModel, s)

/-- The external world of one `sendMessage` call: authentication, the
outcomes of the store and remote calls, and the `Date.now()`-derived
identifiers of the messages constructed inside the call. -/
structure SendEnv where
  userPresent : Bool := true
  createResult : Option String := none
  createConvs : Option (List Conversation) := none
  typingMsg : Message
  remote : Option String
  assistantId : String := "assistant-0"
  assistantTime : String := "t-assistant"
  finalConvs : Option (List Conversation) := none

/-- `sendMessage` from `useMultiChat.ts` (lines 171-294), as the list of
successive live states written via `updateAircraftState`, plus a flag
recording whether the call threw.  `snap` is the closure snapshot of
`aircraftStates` that the function body reads (conversation resolution
at line 180, the `baseMessages` fallback at line 216 and the error-path
read at line 280 all go through this snapshot, not the live state);
`s0` is the live state when the call starts. -/
def sendMessage (snap : AircraftStates) (env : SendEnv) (content aircraftModel : String)
    (currentMessages : Option (List Message)) (conversationId : Option String)
    (s0 : AircraftStates) : List AircraftStates × Bool :=
  if env.userPresent = false then ([], false)
  else
    let target0 : Option String :=
      match conversationId with
      | some c => some c
      | none => (snap aircraftModel).currentConversation
    let phase1 : List AircraftStates × Option String :=
      match target0 with
      | some c => ([], some c)
      | none =>
          let r := createConversation env.userPresent env.createResult env.createConvs
            aircraftModel s0
          match r.2 with
          | none => ([r.1], none)
          | some cid =>
              let s2 := updateAircraftState aircraftModel
                (.patch { currentConversation := some (some cid) }) r.1
              ([r.1, s2], some cid)
    match phase1.2 with
    | none => (phase1.1, true)
    | some _ =>
        let sA := finalState s0 phase1.1
        let sB := updateAircraftState aircraftModel (.patch { isLoading := some true }) sA
        let base := currentMessages.getD (snap aircraftModel).messages
        let sC := updateAircraftState aircraftModel
          (.patch { messages := some (base ++ [env.typingMsg]) }) sB
        match env.remote with
        | some answer =>
            let assistantMessage : Message :=
              { id := env.assistantId, role := .assistant, content := answer,
                created_at := env.assistantTime }
            let updated := base.map confirmPending ++ [assistantMessage]
            let sD := updateAircraftState aircraftModel
              (.patch { messages := some updated, isLoading := some false }) sC
            let sE := loadConversations env.userPresent env.finalConvs aircraftModel sD
            let sF := updateAircraftState aircraftModel (.patch { isLoading := some false }) sE
            (phase1.1 ++ [sB, sC, sD, sE, sF], false)
        | none =>
            let clean := ((snap aircraftModel).messages.filter (fun m => !m.isTyping)).map
              confirmPending
            let sD := updateAircraftState aircraftModel
              (.patch { messages := some clean, isLoading := some false }) sC
            let sE := updateAircraftState aircraftModel (.patch { isLoading := some false }) sD
            (phase1.1 ++ [sB, sC, sD, sE], true)

/-- The external world of one `handleSendMessage` call in `Index.tsx`:
the embedded `sendMessage` environment plus the outcomes of the UI-level
conversation creation and of the `switchConversation` message fetch. -/
structure HandleEnv where
  send : SendEnv
  createResult : Option String := none
  createConvs : Option (List Conversation) := none
  switchFetch : Option (List Message) := none

/-- `handleSendMessage` from `Index.tsx` (lines 56-115): optimistically
echoes the user message, resolves or creates the target conversation,
calls `sendMessage` with the echoed timeline, and on any error strips
pending messages from the (snapshot) timeline.  The second component
records whether the handler threw to the UI — always `false`, the
handler catches everything. -/
def handleSendMessage (snap : AircraftStates) (henv : HandleEnv)
    (message aircraftModel : String) (userMsg : Message) (s0 : AircraftStates) :
    List AircraftStates × Bool :=
  let currentMessages := (snap aircraftModel).messages
  let updatedMessages := currentMessages ++ [userMsg]
  let s1 := updateAircraftState aircraftModel (.patch { messages := some updatedMessages }) s0
  let inner : List AircraftStates × Bool :=
    match (snap aircraftModel).currentConversation with
    | none =>
        let r := createConversation henv.send.userPresent henv.createResult henv.createConvs
          aircraftModel s1
        match r.2 with
        | none => ([r.1], false)
        | some cid =>
            let r2 := switchConversation henv.switchFetch cid aircraftModel r.1
            let r3 := sendMessage snap henv.send message aircraftModel
              (some updatedMessages) (some cid) r2.1
            ([r.1, r2.1] ++ r3.1, r3.2)
    | some convId =>
        sendMessage snap henv.send message aircraftModel
          (some updatedMessages) (some convId) s1
  if inner.2 then
    let sLast := finalState s1 inner.1
    let clean := (snap aircraftModel).messages.filter (fun m => !m.isPending)
    let sErr := updateAircraftState aircraftModel (.patch { messages := some clean }) sLast
    (s1 :: inner.1 ++ [sErr], false)
  else
    (s1 :: inner.1, false)

@[simp]
theorem applyPatch_conversations (s : AircraftState) (p : StatePatch) :
    (applyPatch s p).conversations = p.conversations.getD s.conversations := rfl

@[simp]
theorem applyPatch_currentConversation (s : AircraftState) (p : StatePatch) :
    (applyPatch s p).currentConversation = p.currentConversation.getD s.currentConversation := rfl

@[simp]
theorem applyPatch_messages (s : AircraftState) (p : StatePatch) :
    (applyPatch s p).messages = p.messages.getD s.messages := rfl

@[simp]
theorem applyPatch_isLoading (s : AircraftState) (p : StatePatch) :
    (applyPatch s p).isLoading = p.isLoading.getD s.isLoading := rfl

theorem confirmPending_isPending (m : Message) : (confirmPending m).isPending = false := by
  unfold confirmPending
  split <;> simp_all

theorem confirmPending_isTyping (m : Message) : (confirmPending m).isTyping = m.isTyping := by
  unfold confirmPending
  split <;> rfl

theorem typingCount_append (l₁ l₂ : List Message) :
    typingCount (l₁ ++ l₂) = typingCount l₁ + typingCount l₂ := by
  simp [typingCount, List.countP_append]

theorem typingCount_map_confirmPending (l : List Message) :
    typingCount (l.map confirmPending) = typingCount l := by
  induction l with
  | nil => rfl
  | cons m l ih => simp [typingCount, List.countP_cons, confirmPending_isTyping] at ih ⊢; omega

theorem typingCount_filter_not_typing (l : List Message) :
    typingCount (l.filter (fun m => !m.isTyping)) = 0 := by
  simp only [typingCount, List.countP_eq_zero]
  intro m hm
  rcases List.mem_filter.mp hm with ⟨_, h⟩
  simp_all

theorem typingCount_filter_le (p : Message → Bool) (l : List Message) :
    typingCount (l.filter p) ≤ typingCount l := by
  induction l with
  | nil => simp [typingCount]
  | cons m l ih =>
      by_cases h : p m = true <;>
        simp [typingCount, List.filter_cons, List.countP_cons, h] at ih ⊢ <;> omega

theorem loadConversations_messages (u : Bool) (f : Option (List Conversation))
    (m d : String) (s : AircraftStates) :
    (loadConversations u f m s d).messages = (s d).messages := by
  cases u
  · rfl
  · cases f
    · rfl
    · by_cases h : d = m
      · subst h
        simp [loadConversations, evalUpdate]
      · simp [loadConversations, updateAircraftState_ne h]

theorem loadConversations_currentConversation (u : Bool) (f : Option (List Conversation))
    (m d : String) (s : AircraftStates) :
    (loadConversations u f m s d).currentConversation = (s d).currentConversation := by
  cases u
  · rfl
  · cases f
    · rfl
    · by_cases h : d = m
      · subst h
        simp [loadConversations, evalUpdate]
      · simp [loadConversations, updateAircraftState_ne h]

theorem loadConversations_isLoading (u : Bool) (f : Option (List Conversation))
    (m d : String) (s : AircraftStates) :
    (loadConversations u f m s d).isLoading = (s d).isLoading := by
  cases u
  · rfl
  · cases f
    · rfl
    · by_cases h : d = m
      · subst h
        simp [loadConversations, evalUpdate]
      · simp [loadConversations, updateAircraftState_ne h]

theorem loadConversations_ne {d m : String} (h : d ≠ m) (u : Bool)
    (f : Option (List Conversation)) (s : AircraftStates) :
    loadConversations u f m s d = s d := by
  cases u
  · rfl
  · cases f
    · rfl
    · simp [loadConversations, updateAircraftState_ne h]

/-- Claim C10: a `sendMessage` call with no authenticated user returns
normally (no throw) and performs no state write at all: the trace is
empty, so the live state is unchanged — no conversation creation, no
typing placeholder, no `isLoading` change. -/
theorem C10_noUser_silent (snap : AircraftStates) (env : SendEnv)
    (content aircraftModel : String) (currentMessages : Option (List Message))
    (conversationId : Option String) (s0 : AircraftStates)
    (h : env.userPresent = false) :
    sendMessage snap env content aircraftModel currentMessages conversationId s0 = ([], false)
    ∧ finalState s0
        (sendMessage snap env content aircraftModel currentMessages conversationId s0).1 = s0 := by
  simp [sendMessage, h, finalState]

/-- Witness for C10 at a concrete environment and state. -/
theorem C10_noUser_silent_witness :
    sendMessage (fun _ => initialAircraftState)
        { userPresent := false,
          typingMsg := { id := "typing-1", role := .assistant, content := "",
                         created_at := "t1", isTyping := true },
          remote := none }
        "hello" "A320" none none (fun _ => initialAircraftState) = ([], false) := by
  exact (C10_noUser_silent (fun _ => initialAircraftState) _ "hello" "A320" none none
    (fun _ => initialAircraftState) rfl).1

/-- Claim C7: when the store fetch inside `loadMessages` fails, that
domain's messages are set to the empty list and `isLoading` cleared;
`loadMessages` itself rethrows, but its sole UI-facing caller
`switchConversation` catches and swallows the error (second component
`false`), so the failure never propagates to the UI. -/
theorem C7_loadMessages_failSafe (conversationId aircraftModel : String) (s : AircraftStates) :
    ((loadMessages none conversationId aircraftModel s).1 aircraftModel).messages = []
    ∧ ((loadMessages none conversationId aircraftModel s).1 aircraftModel).isLoading = false
    ∧ (loadMessages none conversationId aircraftModel s).2 = true
    ∧ (switchConversation none conversationId aircraftModel s).2 = false
    ∧ ((switchConversation none conversationId aircraftModel s).1 aircraftModel).messages = []
    ∧ ((switchConversation none conversationId aircraftModel s).1 aircraftModel).isLoading = false := by
  refine ⟨?_, ?_, rfl, rfl, ?_, ?_⟩ <;>
    simp [loadMessages, switchConversation, evalUpdate]

/-- Scenario-B inputs: a user question in domain A330 already echoed
into the live timeline by the UI, a failing remote answer call, and a
render snapshot that predates the echo (the JavaScript closure the
`sendMessage` error path actually reads). -/
def melUser : Message :=
  { id := "temp-5", role := .user, content := "what is MEL?", created_at := "t5",
    isPending := true }

def melTyping : Message :=
  { id := "typing-5", role := .assistant, content := "", created_at := "t6", isTyping := true }

def melSnap : AircraftStates :=
  fun _ => { initialAircraftState with currentConversation := some "conv-a330" }

def melEnv : SendEnv := { typingMsg := melTyping, remote := none }

def melLive : AircraftStates :=
  updateAircraftState "A330" (.patch { messages := some [melUser] }) melSnap

def melRun : List AircraftStates × Bool :=
  sendMessage melSnap melEnv "what is MEL?" "A330" (some [melUser]) (some "conv-a330") melLive

/-- Claim C5 evaluated at the failing input.  The call rejects, ends with
`isLoading = false` and no typing message — but the error path rebuilds
the timeline from the stale render snapshot, so the final timeline is
empty: the user's own message, pending at call start, is dropped instead
of being kept with `pending = false`.  This contradicts both the claim
and the code's own comment ("keep user messages (including pending
ones)"). -/
theorem C5_errorPath_dropsUserMessage :
    melRun.2 = true
    ∧ ((finalState melLive melRun.1) "A330").isLoading = false
    ∧ typingCount (((finalState melLive melRun.1) "A330").messages) = 0
    ∧ ((melLive "A330").messages = [melUser] ∧ melUser.isPending = true)
    ∧ ((finalState melLive melRun.1) "A330").messages = [] := by
  decide

/-- Pending-resolution inputs: the Index `handleSendMessage` flow on a
domain with an existing conversation, an empty render snapshot, and a
failing remote call. -/
def prUser : Message :=
  { id := "temp-2", role := .user, content := "hello", created_at := "t2", isPending := true }

def prTyping : Message :=
  { id := "typing-2", role := .assistant, content := "", created_at := "t3", isTyping := true }

def prSnap : AircraftStates :=
  fun _ => { initialAircraftState with currentConversation := some "conv-1" }

def prHenv : HandleEnv := { send := { typingMsg := prTyping, remote := none } }

def prRun : List AircraftStates × Bool :=
  handleSendMessage prSnap prHenv "hello" "A320" prUser prSnap

/-- Counterexample to claim C2: in the failing `handleSendMessage` run,
the user's message is pending in the domain timeline when the inner
`sendMessage` starts (first traced state), yet the final timeline is
empty — the pending message was removed rather than resolved to
`pending = false`. -/
theorem C2_counterexample :
    prUser ∈ ((prRun.1.headD prSnap) "A320").messages
    ∧ prUser.isPending = true
    ∧ ((finalState prSnap prRun.1) "A320").messages = [] := by
  decide

/-- Claim C2 as amended: on a successful `sendMessage`, every message of
the call-start timeline — the caller-supplied snapshot `ms`, which in the
Index flow equals the live timeline at call start — survives into the
final timeline with `pending = false` (pending messages are confirmed,
none removed).  The original claim's "whether they succeed or fail" part
is refuted by `C2_counterexample`. -/
theorem C2_success_resolution (snap s0 : AircraftStates) (env : SendEnv)
    (content aircraftModel c ans : String) (ms : List Message)
    (huser : env.userPresent = true) (hremote : env.remote = some ans)
    (hms : (s0 aircraftModel).messages = ms) :
    (sendMessage snap env content aircraftModel (some ms) (some c) s0).2 = false
    ∧ ∀ m ∈ (s0 aircraftModel).messages,
        confirmPending m ∈
          ((finalState s0
              (sendMessage snap env content aircraftModel (some ms) (some c) s0).1)
            aircraftModel).messages
        ∧ (confirmPending m).isPending = false := by
  constructor
  · simp [sendMessage, huser, hremote]
  · intro m hm
    rw [hms] at hm
    refine ⟨?_, confirmPending_isPending m⟩
    have hfin : ((finalState s0
        (sendMessage snap env content aircraftModel (some ms) (some c) s0).1)
          aircraftModel).messages
        = ms.map confirmPending ++
          [{ id := env.assistantId, role := .assistant, content := ans,
             created_at := env.assistantTime }] := by
      simp [sendMessage, huser, hremote, finalState, loadConversations_messages, evalUpdate]
    rw [hfin]
    exact List.mem_append_left _ (List.mem_map_of_mem confirmPending hm)

def prwUser : Message :=
  { id := "temp-3", role := .user, content := "hello", created_at := "t7", isPending := true }

def prwLive : AircraftStates :=
  fun _ => { initialAircraftState with messages := [prwUser] }

/-- Witness for the amended C2 at a concrete successful send. -/
theorem C2_success_resolution_witness :
    confirmPending prwUser ∈
      ((finalState prwLive
          (sendMessage prSnap { typingMsg := prTyping, remote := some "hi" }
            "hello" "A320" (some [prwUser]) (some "conv-1") prwLive).1)
        "A320").messages := by
  have h := C2_success_resolution prSnap prwLive
    { typingMsg := prTyping, remote := some "hi" } "hello" "A320" "conv-1" "hi"
    [prwUser] rfl rfl rfl
  exact (h.2 prwUser (by decide)).1

/-- Claim C3: the Index round trip on a domain whose snapshot timeline is
empty, with an existing conversation and a successful remote answer
"hi there", ends with exactly the confirmed user message followed by the
assistant answer, and no typing placeholder. -/
theorem C3_roundTrip (snap : AircraftStates) (henv : HandleEnv)
    (aircraftModel c uid t0 : String) (userMsg : Message)
    (hempty : (snap aircraftModel).messages = [])
    (hconv : (snap aircraftModel).currentConversation = some c)
    (huser : henv.send.userPresent = true)
    (hremote : henv.send.remote = some "hi there")
    (hmsg : userMsg = { id := uid, role := .user, content := "hello", created_at := t0,
                        isPending := true }) :
    (handleSendMessage snap henv "hello" aircraftModel userMsg snap).2 = false
    ∧ ((finalState snap (handleSendMessage snap henv "hello" aircraftModel userMsg snap).1)
        aircraftModel).messages
      = [{ userMsg with isPending := false },
         { id := henv.send.assistantId, role := .assistant, content := "hi there",
           created_at := henv.send.assistantTime }]
    ∧ typingCount
        (((finalState snap (handleSendMessage snap henv "hello" aircraftModel userMsg snap).1)
          aircraftModel).messages) = 0 := by
  subst hmsg
  have h2 : ((finalState snap (handleSendMessage snap henv "hello" aircraftModel
      { id := uid, role := .user, content := "hello", created_at := t0, isPending := true }
      snap).1) aircraftModel).messages
      = [{ id := uid, role := .user, content := "hello", created_at := t0 },
         { id := henv.send.assistantId, role := .assistant, content := "hi there",
           created_at := henv.send.assistantTime }] := by
    simp [handleSendMessage, sendMessage, hconv, huser, hremote, hempty, finalState,
      loadConversations_messages, confirmPending, evalUpdate]
  refine ⟨?_, ?_, ?_⟩
  · simp [handleSendMessage, sendMessage, hconv, huser, hremote]
  · rw [h2]
  · rw [h2]
    simp [typingCount]

/-- Witness for C3 at a concrete state and environment. -/
theorem C3_roundTrip_witness :
    ((finalState prSnap (handleSendMessage prSnap
        { send := { typingMsg := prTyping, remote := some "hi there" } }
        "hello" "A320"
        { id := "temp-9", role := .user, content := "hello", created_at := "t9",
          isPending := true }
        prSnap).1) "A320").messages
      = [{ id := "temp-9", role := .user, content := "hello", created_at := "t9" },
         { id := "assistant-0", role := .assistant, content := "hi there",
           created_at := "t-assistant" }] := by
  have h := C3_roundTrip prSnap
    { send := { typingMsg := prTyping, remote := some "hi there" } }
    "A320" "conv-1" "temp-9" "t9"
    { id := "temp-9", role := .user, content := "hello", created_at := "t9",
      isPending := true }
    rfl rfl rfl rfl rfl
  exact h.2.1

theorem typingCount_single_le (m : Message) : typingCount [m] ≤ 1 := by
  by_cases h : m.isTyping <;> simp [typingCount, List.countP_cons, List.countP_nil, h]

/-- Two overlapping sends on one domain.  The first handler has written
its typing placeholder and is awaiting the remote call; `overlapMid` is
exactly that state (the third traced state of the first run). -/
def overlapS0 : AircraftStates :=
  fun _ => { initialAircraftState with currentConversation := some "conv-4" }

def overlapUser1 : Message :=
  { id := "temp-41", role := .user, content := "first", created_at := "t41", isPending := true }

def overlapTyping1 : Message :=
  { id := "typing-41", role := .assistant, content := "", created_at := "t42", isTyping := true }

def overlapUser2 : Message :=
  { id := "temp-43", role := .user, content := "second", created_at := "t43", isPending := true }

def overlapTyping2 : Message :=
  { id := "typing-44", role := .assistant, content := "", created_at := "t44", isTyping := true }

def overlapMid : AircraftStates :=
  (handleSendMessage overlapS0 { send := { typingMsg := overlapTyping1, remote := some "a1" } }
    "first" "A320" overlapUser1 overlapS0).1.getD 2 overlapS0

/-- The state observed right after the second overlapping handler (whose
render snapshot is `overlapMid`, i.e. it started while the first send was
in flight) has written its own typing placeholder. -/
def overlapObserved : AircraftStates :=
  (handleSendMessage overlapMid { send := { typingMsg := overlapTyping2, remote := some "a2" } }
    "second" "A320" overlapUser2 overlapMid).1.getD 2 overlapMid

/-- Counterexample to claim C4: with two temporally overlapping
`sendMessage` flows on one domain, the timeline observed after the second
flow's typing write contains two `typing = true` messages at once (the
first flow's placeholder is still live, `typingCount = 1` at the instant
the second flow starts). -/
theorem C4_counterexample :
    typingCount ((overlapMid "A320").messages) = 1
    ∧ typingCount ((overlapObserved "A320").messages) = 2 := by
  decide

/-- One request of a sequence of non-overlapping sends: the user message
echoed by the UI, the typing placeholder and assistant identifiers
constructed inside the call, and the remote outcome. -/
structure SeqReq where
  userMsg : Message
  typingMsg : Message
  remote : Option String
  assistantId : String := "assistant-0"
  assistantTime : String := "t-assistant"
  finalConvs : Option (List Conversation) := none

def reqEnv (r : SeqReq) : HandleEnv :=
  { send := { typingMsg := r.typingMsg, remote := r.remote, assistantId := r.assistantId,
              assistantTime := r.assistantTime, finalConvs := r.finalConvs } }

/-- Sequential (non-overlapping) sends: each `handleSendMessage` run
completes, and the component re-renders, before the next starts — so
each run's snapshot equals the live state.  Returns all observed live
states. -/
def runSequential (aircraftModel : String) (s : AircraftStates) :
    List SeqReq → List AircraftStates
  | [] => []
  | r :: rest =>
      let t := handleSendMessage s (reqEnv r) r.userMsg.content aircraftModel r.userMsg s
      t.1 ++ runSequential aircraftModel (finalState s t.1) rest

@[simp]
theorem evalUpdate_patch (p : StatePatch) (s : AircraftState) : evalUpdate (.patch p) s = p := rfl

@[simp]
theorem evalUpdate_fn (f : AircraftState → StatePatch) (s : AircraftState) :
    evalUpdate (.fn f) s = f s := rfl

theorem typingCount_eq_zero_iff (l : List Message) :
    typingCount l = 0 ↔ ∀ m ∈ l, m.isTyping = false := by
  simp [typingCount, List.countP_eq_zero]

theorem typingCount_single (m : Message) :
    typingCount [m] = if m.isTyping = true then 1 else 0 := by
  simp [typingCount, List.countP_cons, List.countP_nil]

theorem typingCount_nil : typingCount [] = 0 := rfl

theorem typingCount_cons (m : Message) (l : List Message) :
    typingCount (m :: l) = (if m.isTyping = true then 1 else 0) + typingCount l := by
  simp [typingCount, List.countP_cons]
  omega

theorem handleSendMessage_typing_clean (s : AircraftStates) (henv : HandleEnv)
    (message aircraftModel c : String) (userMsg : Message)
    (hconv : (s aircraftModel).currentConversation = some c)
    (h0 : typingCount ((s aircraftModel).messages) = 0)
    (hu : userMsg.isTyping = false)
    (huser : henv.send.userPresent = true) :
    (∀ st ∈ (handleSendMessage s henv message aircraftModel userMsg s).1,
        typingCount ((st aircraftModel).messages) ≤ 1)
    ∧ typingCount
        (((finalState s (handleSendMessage s henv message aircraftModel userMsg s).1)
          aircraftModel).messages) = 0
    ∧ ((finalState s (handleSendMessage s henv message aircraftModel userMsg s).1)
        aircraftModel).currentConversation = some c := by
  have hle := typingCount_filter_le (fun m => !m.isPending) ((s aircraftModel).messages)
  cases hr : henv.send.remote with
  | some ans =>
      refine ⟨?_, ?_, ?_⟩
      · intro st hst
        simp only [handleSendMessage, sendMessage, hconv, huser, hr] at hst
        simp [finalState] at hst
        rcases hst with h | h | h | h | h | h <;> subst h <;>
          simp only [updateAircraftState_self, applyPatch_messages,
            applyPatch_currentConversation, evalUpdate_patch, Option.getD_some,
            Option.getD_none, finalState, loadConversations_messages,
            loadConversations_currentConversation, List.map_append, typingCount_append,
            typingCount_map_confirmPending, typingCount_filter_not_typing,
            typingCount_single, typingCount_cons, typingCount_nil,
            confirmPending_isTyping, h0, hu] <;>
          first
          | omega
          | (simp [hu, confirmPending_isTyping, typingCount_single, typingCount_cons,
                typingCount_nil] <;>
              first | omega | (split <;> omega))
          | (split <;> omega)
      · simp only [handleSendMessage, sendMessage, hconv, huser, hr]
        try simp [finalState]
        simp only [updateAircraftState_self, applyPatch_messages, evalUpdate_patch,
          Option.getD_some, Option.getD_none, finalState, loadConversations_messages,
          List.map_append, typingCount_append, typingCount_map_confirmPending,
          typingCount_single, typingCount_cons, typingCount_nil,
          confirmPending_isTyping, h0, hu]
        simp
      · simp only [handleSendMessage, sendMessage, hconv, huser, hr]
        try simp [finalState]
        simp only [updateAircraftState_self, applyPatch_currentConversation,
          evalUpdate_patch, Option.getD_some, Option.getD_none, finalState,
          loadConversations_currentConversation]
        simp [hconv]
  | none =>
      refine ⟨?_, ?_, ?_⟩
      · intro st hst
        simp only [handleSendMessage, sendMessage, hconv, huser, hr] at hst
        simp [finalState] at hst
        rcases hst with h | h | h | h | h | h <;> subst h <;>
          simp only [updateAircraftState_self, applyPatch_messages,
            applyPatch_currentConversation, evalUpdate_patch, Option.getD_some,
            Option.getD_none, finalState, List.map_append, typingCount_append,
            typingCount_map_confirmPending, typingCount_filter_not_typing,
            typingCount_single, typingCount_cons, typingCount_nil,
            confirmPending_isTyping, h0, hu] <;>
          first
          | omega
          | (simp [hu, confirmPending_isTyping, typingCount_single, typingCount_cons,
                typingCount_nil] <;>
              first | omega | (split <;> omega))
          | (split <;> omega)
      · simp [handleSendMessage, sendMessage, hconv, huser, hr, finalState,
          typingCount_filter_not_typing] <;> omega
      · simp [handleSendMessage, sendMessage, hconv, huser, hr, finalState]

/-- Claim C4 as amended: for sequential (non-overlapping) `sendMessage`
flows on one domain, every observed state of the run has at most one
`typing = true` message in that domain's timeline.  The original claim's
extension to temporally overlapping calls is refuted by
`C4_counterexample`. -/
theorem C4_sequential_typing_unique (aircraftModel c : String) (reqs : List SeqReq)
    (s0 : AircraftStates)
    (hconv : (s0 aircraftModel).currentConversation = some c)
    (h0 : typingCount ((s0 aircraftModel).messages) = 0)
    (hreq : ∀ r ∈ reqs, r.userMsg.isTyping = false) :
    ∀ st ∈ s0 :: runSequential aircraftModel s0 reqs,
      typingCount ((st aircraftModel).messages) ≤ 1 := by
  induction reqs generalizing s0 with
  | nil =>
      intro st hst
      simp [runSequential] at hst
      subst hst
      omega
  | cons r rest ih =>
      intro st hst
      rcases List.mem_cons.mp hst with h | h
      · subst h; omega
      · simp only [runSequential] at h
        have hclean := handleSendMessage_typing_clean s0 (reqEnv r) r.userMsg.content
          aircraftModel c r.userMsg hconv h0 (hreq r (List.mem_cons_self r rest)) rfl
        rcases List.mem_append.mp h with h | h
        · exact hclean.1 st h
        · exact ih (finalState s0 (handleSendMessage s0 (reqEnv r) r.userMsg.content
              aircraftModel r.userMsg s0).1) hclean.2.2 hclean.2.1
            (fun q hq => hreq q (List.mem_cons_of_mem r hq)) st (List.mem_cons_of_mem _ h)

/-- Witness for the amended C4: the conclusion of the sequential theorem
instantiated at a concrete two-request run and a concrete observed
state. -/
theorem C4_sequential_typing_unique_witness :
    typingCount ((overlapS0 "A320").messages) ≤ 1 := by
  have h := C4_sequential_typing_unique "A320" "conv-4"
    [{ userMsg := overlapUser1, typingMsg := overlapTyping1, remote := some "a1" },
     { userMsg := overlapUser2, typingMsg := overlapTyping2, remote := none }]
    overlapS0 rfl (by decide) (by decide)
  exact h overlapS0 (List.mem_cons_self _ _)

theorem loadMessages_ne {d m : String} (h : d ≠ m) (f : Option (List Message))
    (cid : String) (s : AircraftStates) : (loadMessages f cid m s).1 d = s d := by
  cases f <;> simp [loadMessages, updateAircraftState_ne h]

theorem switchConversation_ne {d m : String} (h : d ≠ m) (f : Option (List Message))
    (cid : String) (s : AircraftStates) : (switchConversation f cid m s).1 d = s d := by
  cases f <;> simp [switchConversation, loadMessages, updateAircraftState_ne h]

theorem createConversation_ne {d m : String} (h : d ≠ m) (u : Bool) (ir : Option String)
    (f : Option (List Conversation)) (s : AircraftStates) :
    (createConversation u ir f m s).1 d = s d := by
  cases u <;> rcases ir with _ | cid <;>
    simp [createConversation, loadConversations_ne h]

theorem sendMessage_frame {d aircraftModel : String} (h : d ≠ aircraftModel)
    (snap : AircraftStates) (env : SendEnv) (content : String)
    (cm : Option (List Message)) (cid : Option String) (s0 : AircraftStates) :
    ∀ st ∈ (sendMessage snap env content aircraftModel cm cid s0).1, st d = s0 d := by
  cases hu : env.userPresent with
  | false => simp [sendMessage, hu]
  | true =>
      rcases cid with _ | c
      · rcases hcc : (snap aircraftModel).currentConversation with _ | c0
        · rcases hcr : env.createResult with _ | cid0
          · simp [sendMessage, hu, hcc, hcr, createConversation, finalState,
              List.forall_mem_cons]
          · cases hr : env.remote <;>
              simp [sendMessage, hu, hcc, hcr, hr, createConversation, finalState,
                List.forall_mem_cons, updateAircraftState_ne h, loadConversations_ne h]
        · cases hr : env.remote <;>
            simp [sendMessage, hu, hcc, hr, finalState, List.forall_mem_cons,
              updateAircraftState_ne h, loadConversations_ne h]
      · cases hr : env.remote <;>
          simp [sendMessage, hu, hr, finalState, List.forall_mem_cons,
            updateAircraftState_ne h, loadConversations_ne h]

theorem handleSendMessage_frame {d aircraftModel : String} (h : d ≠ aircraftModel)
    (snap : AircraftStates) (henv : HandleEnv) (message : String) (userMsg : Message)
    (s0 : AircraftStates) :
    ∀ st ∈ (handleSendMessage snap henv message aircraftModel userMsg s0).1, st d = s0 d := by
  cases hu : henv.send.userPresent <;>
    rcases hcc : (snap aircraftModel).currentConversation with _ | c0 <;>
    rcases hcr : henv.createResult with _ | cid0 <;>
    cases hr : henv.send.remote <;>
      simp [handleSendMessage, sendMessage, createConversation, hcc, hcr, hu, hr,
        finalState, List.forall_mem_cons, updateAircraftState_ne h,
        loadConversations_ne h, switchConversation_ne h]

def isoConv : Conversation :=
  { id := "c1", title := "Trip Plan", created_at := "t", updated_at := "t",
    aircraft_model := "A330" }

/-- Counterexample to claim C6: switching the active domain to a domain
whose conversation list is empty triggers `loadConversations`, which
replaces that domain's `conversations` with the fetched list — the
switched-to domain's `conversations` are mutated, contradicting the
"never mutates that domain's messages or conversations" part. -/
theorem C6_counterexample :
    ((switchAircraftModel true (some [isoConv]) "A330"
        (fun _ => initialAircraftState)).2 "A330").conversations
      ≠ ((fun _ => initialAircraftState : AircraftStates) "A330").conversations := by
  decide

/-- Claim C6 as amended: sending a message in domain A never changes any
other domain's session; switching the active domain never changes any
other domain's session, never changes the switched-to domain's
`messages`, `currentConversation` or `isLoading`, and leaves the state
entirely unchanged when the switched-to domain's conversation list is
already populated — but it does populate an empty conversation list from
the store (refuting the unqualified original claim, see
`C6_counterexample`). -/
theorem C6_isolation (aircraftModel d : String) (snap : AircraftStates) (henv : HandleEnv)
    (message : String) (userMsg : Message) (s0 s : AircraftStates) (u : Bool)
    (f : Option (List Conversation)) (hd : d ≠ aircraftModel) :
    (∀ st ∈ (handleSendMessage snap henv message aircraftModel userMsg s0).1, st d = s0 d)
    ∧ (switchAircraftModel u f aircraftModel s).2 d = s d
    ∧ ((switchAircraftModel u f aircraftModel s).2 aircraftModel).messages
        = (s aircraftModel).messages
    ∧ ((switchAircraftModel u f aircraftModel s).2 aircraftModel).currentConversation
        = (s aircraftModel).currentConversation
    ∧ ((switchAircraftModel u f aircraftModel s).2 aircraftModel).isLoading
        = (s aircraftModel).isLoading
    ∧ ((s aircraftModel).conversations ≠ [] →
        (switchAircraftModel u f aircraftModel s).2 = s) := by
  refine ⟨handleSendMessage_frame hd snap henv message userMsg s0, ?_, ?_, ?_, ?_, ?_⟩
  · unfold switchAircraftModel
    split <;> simp [loadConversations_ne hd]
  · unfold switchAircraftModel
    split <;> simp [loadConversations_messages]
  · unfold switchAircraftModel
    split <;> simp [loadConversations_currentConversation]
  · unfold switchAircraftModel
    split <;> simp [loadConversations_isLoading]
  · intro hne
    unfold switchAircraftModel
    rw [if_neg (by simpa [List.length_eq_zero] using hne)]

/-- Witness for the amended C6 at concrete domains and state. -/
theorem C6_isolation_witness :
    (switchAircraftModel true (some [isoConv]) "A330"
        (fun _ => { initialAircraftState with conversations := [isoConv] })).2
      = (fun _ => { initialAircraftState with conversations := [isoConv] }) := by
  have h := C6_isolation "A330" "A320"
    (fun _ => initialAircraftState) { send := { typingMsg := prTyping, remote := none } }
    "hello" prUser (fun _ => initialAircraftState)
    (fun _ => { initialAircraftState with conversations := [isoConv] })
    true (some [isoConv]) (by decide)
  exact h.2.2.2.2.2 (by decide)

/-- An `RTCPeerConnection`: `closed` records whether `close()` ran. -/
structure PeerConnection where
  closed : Bool
deriving DecidableEq

/-- An `RTCDataChannel`: `closed` records whether `close()` ran. -/
structure DataChannel where
  closed : Bool
deriving DecidableEq

/-- A microphone `MediaStream`: `stopped` records whether its tracks were
stopped, `enabled` whether the audio tracks are enabled. -/
structure MicStream where
  stopped : Bool
  enabled : Bool
deriving DecidableEq

/-- The `Audio` element created during connect. -/
structure AudioElement where
  autoplay : Bool
deriving DecidableEq

/-- The voice-related state of `VoiceEnabledMessageInput.tsx`: the
`voiceConnected` / `connecting` / `micEnabled` `useState`s and the four
refs holding the partially- or fully-acquired resources. -/
structure VoiceState where
  voiceConnected : Bool := false
  connecting : Bool := false
  micEnabled : Bool := true
  pcRef : Option PeerConnection := none
  dcRef : Option DataChannel := none
  micStreamRef : Option MicStream := none
  remoteAudioRef : Option AudioElement := none
deriving DecidableEq

/-- Where a `connectVoice` attempt fails: at the realtime-session fetch
(before any resource is acquired), at `getUserMedia` (microphone
permission denial, after pc/audio/dc are created), at the SDP exchange
with the remote service (after the microphone stream is acquired), or
nowhere (`ok`). -/
inductive ConnectOutcome where
  | sessionErr
  | micErr
  | sdpErr
  | ok
deriving DecidableEq

/-- `connectVoice` from `VoiceEnabledMessageInput.tsx`.  Returns the new
state and whether an error was reported (the catch block's toast).  The
guard returns early when already connected or connecting; the catch block
only reports — it releases nothing — and the `finally` clears
`connecting`. -/
def connectVoice (o : ConnectOutcome) (v : VoiceState) : VoiceState × Bool :=
  if v.voiceConnected || v.connecting then (v, false)
  else
    match o with
    | .sessionErr => ({ v with connecting := false }, true)
    | .micErr =>
        ({ v with connecting := false,
                  pcRef := some { closed := false },
                  remoteAudioRef := some { autoplay := true },
                  dcRef := some { closed := false } }, true)
    | .sdpErr =>
        ({ v with connecting := false,
                  pcRef := some { closed := false },
                  remoteAudioRef := some { autoplay := true },
                  dcRef := some { closed := false },
                  micStreamRef := some { stopped := false, enabled := true } }, true)
    | .ok =>
        ({ v with connecting := false, voiceConnected := true,
                  pcRef := some { closed := false },
                  remoteAudioRef := some { autoplay := true },
                  dcRef := some { closed := false },
                  micStreamRef := some { stopped := false, enabled := true } }, false)

/-- `disconnectVoice` from `VoiceEnabledMessageInput.tsx`: early-returns
when not connected; otherwise clears `voiceConnected`, closes the data
channel and peer connection, stops the microphone tracks and nulls the
three transport refs (the audio element ref is left as is).  The function
contains no throw. -/
def disconnectVoice (v : VoiceState) : VoiceState :=
  if v.voiceConnected = false then v
  else
    { v with voiceConnected := false, dcRef := none, pcRef := none, micStreamRef := none }

/-- Counterexample to claim C8: a `connectVoice` attempt that fails at
the SDP exchange reports the error, yet the microphone stream and peer
connection acquired earlier in the attempt are still held in the refs,
unstopped and unclosed — they are not released before the error is
reported.  (And since `voiceConnected` is still false, a later
`disconnectVoice` early-returns and cannot release them either.) -/
theorem C8_counterexample :
    (connectVoice .sdpErr {}).2 = true
    ∧ (connectVoice .sdpErr {}).1.micStreamRef = some { stopped := false, enabled := true }
    ∧ (connectVoice .sdpErr {}).1.pcRef = some { closed := false }
    ∧ disconnectVoice (connectVoice .sdpErr {}).1 = (connectVoice .sdpErr {}).1 := by
  decide

/-- Claim C8 as amended: every failure during `connect` reports the error
and leaves the adapter not connected (`voiceConnected = false`,
`connecting = false`), but the resources partially acquired during the
attempt are NOT released: after a microphone failure the peer connection,
audio element and data channel remain held open in the refs, and after an
SDP failure the microphone stream does too. -/
theorem C8_connectFailure (v : VoiceState) (o : ConnectOutcome)
    (hvc : v.voiceConnected = false) (hcn : v.connecting = false) (ho : o ≠ .ok) :
    (connectVoice o v).2 = true
    ∧ (connectVoice o v).1.voiceConnected = false
    ∧ (connectVoice o v).1.connecting = false
    ∧ (o = .micErr ∨ o = .sdpErr →
        (connectVoice o v).1.pcRef = some { closed := false }
        ∧ (connectVoice o v).1.dcRef = some { closed := false })
    ∧ (o = .sdpErr →
        (connectVoice o v).1.micStreamRef = some { stopped := false, enabled := true }) := by
  cases o <;> simp_all [connectVoice]

/-- Witness for the amended C8 at a concrete failing attempt. -/
theorem C8_connectFailure_witness :
    (connectVoice .sdpErr {}).1.voiceConnected = false
    ∧ (connectVoice .sdpErr {}).1.micStreamRef
        = some { stopped := false, enabled := true } := by
  have h := C8_connectFailure {} .sdpErr rfl rfl (by decide)
  exact ⟨h.2.1, h.2.2.2.2 rfl⟩

/-- Claim C9: `disconnectVoice` is idempotent — a second call is a no-op,
calling it when never connected leaves the state untouched (and the
function cannot throw: it is total), the terminal state has no active
connection, and a disconnect from a connected state nulls the transport
and microphone refs. -/
theorem C9_disconnectIdempotent (v : VoiceState) :
    disconnectVoice (disconnectVoice v) = disconnectVoice v
    ∧ (disconnectVoice v).voiceConnected = false
    ∧ (v.voiceConnected = false → disconnectVoice v = v)
    ∧ (v.voiceConnected = true →
        (disconnectVoice v).pcRef = none
        ∧ (disconnectVoice v).dcRef = none
        ∧ (disconnectVoice v).micStreamRef = none) := by
  unfold disconnectVoice
  rcases hv : v.voiceConnected <;> simp [hv]

/-- Witness for C9 at a concrete connected state and a concrete
never-connected state. -/
theorem C9_disconnectIdempotent_witness :
    (disconnectVoice (connectVoice .ok {}).1).pcRef = none
    ∧ disconnectVoice {} = ({} : VoiceState) := by
  refine ⟨(C9_disconnectIdempotent (connectVoice .ok {}).1).2.2.2 (by decide) |>.1, ?_⟩
  exact (C9_disconnectIdempotent {}).2.2.1 rfl

end Airbus
